import Mathlib

/-!
Verification of the confluo RPC session/cursor layer (`dialog_service_handler`
in `src/librpc/rpc/dialog_server.h`) and of the store-level test scenarios
(`src/libdialog/test/dialog_store_test.h`), as a shallow embedding in Lean.

Streams are modelled as finite lists of remaining items: the source streams
(`fri_result_type`, `filter_rstream_type`, `ffilter_rstream_type`, and the
alert iterator pair) are single-pass iterators over a snapshot fixed at
creation, so a list of the not-yet-consumed items captures their state.
Record bytes are modelled as `String` (the handler appends raw record bytes
into the `std::string` field `data`). `std::map` is modelled as an
association list with `std::map::insert` / `std::map::at` semantics.
-/

namespace Confluo

/-- Cursor kind tags of the RPC layer (`rpc_iterator_type`). -/
inductive rpc_iterator_type
  | RPC_ADHOC
  | RPC_PREDEF
  | RPC_COMBINED
  | RPC_ALERTS
  deriving DecidableEq, Repr

/-- Payload kind tags of the RPC layer (`rpc_data_type`). -/
inductive rpc_data_type
  | RPC_RECORD
  | RPC_ALERT
  deriving DecidableEq, Repr

/-- Iterator descriptor (`rpc_iterator_descriptor`): identifies a server-side
cursor by handler id, cursor id and kind. -/
structure rpc_iterator_descriptor where
  data_type : rpc_data_type
  handler_id : Int
  id : Nat
  type : rpc_iterator_type
  deriving DecidableEq, Repr

/-- One page of results (`rpc_iterator_handle`). -/
structure rpc_iterator_handle where
  desc : rpc_iterator_descriptor
  data : String
  num_entries : Nat
  has_more : Bool
  deriving DecidableEq, Repr

/-- The two RPC exception kinds thrown by the handler
(`rpc_invalid_operation`, `rpc_management_exception`), each carrying a
message. -/
inductive rpc_exception
  | invalid_operation (msg : String)
  | management (msg : String)
  deriving DecidableEq, Repr

/-- The two exception kinds a `dialog_table` call can raise into the handler
(`management_exception` and `parse_exception`). -/
inductive table_exception
  | management (msg : String)
  | parse (msg : String)
  deriving DecidableEq, Repr

/-- Modelled from the spec: the `alert` class is not in the sources (only its
use `a.to_string()` in `alerts_more` is). Fields follow the spec's data model
`{trigger_name, time_bucket_ms, value, message}`; the aggregate value is
modelled as an integer. -/
structure alert where
  trigger_name : String
  time_bucket_ms : Int
  value : Int
  message : String
  deriving DecidableEq, Repr

/-- Modelled from the spec: the alert wire format is one text line
`trigger_name|bucket_ms|value|message`. -/
def alert.to_string (a : alert) : String :=
  a.trigger_name ++ "|" ++ toString a.time_bucket_ms ++ "|" ++ toString a.value
    ++ "|" ++ a.message

/-- Lookup in an association list, the model of `std::map::at` (which throws
`std::out_of_range` exactly when the result here is `none`). -/
def alist_lookup {α : Type} : List (Nat × α) → Nat → Option α
  | [], _ => none
  | (k, v) :: t, key => if key = k then some v else alist_lookup t key

/-- Replace the value bound to `key`, the model of mutating the mapped value
through the reference returned by `std::map::at`. -/
def alist_update {α : Type} : List (Nat × α) → Nat → α → List (Nat × α)
  | [], _, _ => []
  | (k, v) :: t, key, x =>
    if key = k then (k, x) :: t else (k, v) :: alist_update t key x

/-- Key-presence test, the model of `std::map::insert` returning
`ret.second == false`. -/
def alist_contains {α : Type} (m : List (Nat × α)) (key : Nat) : Bool :=
  (alist_lookup m key).isSome

/-- Keys of an association list. -/
def alist_keys {α : Type} (m : List (Nat × α)) : List Nat :=
  m.map Prod.fst

/-- The table a handler session queries (`cur_table_`). `dialog_table` itself
is not in the sources; the handler only observes the results of its calls, so
its operations are abstract function fields. `execute_filter` and the
expression-taking `query_filter` overload return either a stream of records
(each record's raw bytes as a `String`) or the message of a `parse_exception`;
`add_filter` / `add_trigger` return either success or one of the two exception
kinds the handler catches. -/
structure dialog_table where
  add_filter : String → String → Except table_exception Unit
  add_trigger : String → String → String → Except table_exception Unit
  execute_filter : String → Except String (List String)
  query_filter : String → Int → Int → List String
  query_filter_expr : String → String → Int → Int → Except String (List String)
  get_alerts : Int → Int → List alert

/-- State of one handler session (`dialog_service_handler`): handler id,
current table, the cursor-id counter `iterator_id_`, and the four cursor maps
`adhoc_`, `predef_`, `combined_`, `alerts_`. -/
structure dialog_service_handler where
  handler_id : Int
  table : dialog_table
  iterator_id : Nat
  adhoc : List (Nat × List String)
  predef : List (Nat × List String)
  combined : List (Nat × List String)
  alerts : List (Nat × List alert)

/-- The constructor `dialog_service_handler(dialog_store*)`: handler id `-1`,
cursor-id counter `0`, all four cursor maps empty. -/
def dialog_service_handler.init (t : dialog_table) : dialog_service_handler :=
  { handler_id := -1, table := t, iterator_id := 0,
    adhoc := [], predef := [], combined := [], alerts := [] }

/-- `new_iterator_id()`: returns `iterator_id_++`. -/
def dialog_service_handler.new_iterator_id (σ : dialog_service_handler) :
    Nat × dialog_service_handler :=
  (σ.iterator_id, { σ with iterator_id := σ.iterator_id + 1 })

/-- `adhoc_more`: pull up to `batch` records from the ad-hoc stream bound to
`it_id`, or throw `InvalidOperation("No such iterator")` if the id is absent.
The consumed stream state is written back (the loop advances the stream
through the reference obtained from `std::map::at`). -/
def dialog_service_handler.adhoc_more (σ : dialog_service_handler)
    (batch : Nat) (it_id : Nat) :
    Except rpc_exception rpc_iterator_handle × dialog_service_handler :=
  match alist_lookup σ.adhoc it_id with
  | none => (.error (.invalid_operation "No such iterator"), σ)
  | some res =>
    (.ok { desc := { data_type := .RPC_RECORD, handler_id := σ.handler_id,
                     id := it_id, type := .RPC_ADHOC },
           data := String.join (res.take batch),
           num_entries := (res.take batch).length,
           has_more := !(res.drop batch).isEmpty },
     { σ with adhoc := alist_update σ.adhoc it_id (res.drop batch) })

/-- `predef_more`: same paging loop over the predefined-filter map. -/
def dialog_service_handler.predef_more (σ : dialog_service_handler)
    (batch : Nat) (it_id : Nat) :
    Except rpc_exception rpc_iterator_handle × dialog_service_handler :=
  match alist_lookup σ.predef it_id with
  | none => (.error (.invalid_operation "No such iterator"), σ)
  | some res =>
    (.ok { desc := { data_type := .RPC_RECORD, handler_id := σ.handler_id,
                     id := it_id, type := .RPC_PREDEF },
           data := String.join (res.take batch),
           num_entries := (res.take batch).length,
           has_more := !(res.drop batch).isEmpty },
     { σ with predef := alist_update σ.predef it_id (res.drop batch) })

/-- `combined_more`: same paging loop over the combined-filter map. -/
def dialog_service_handler.combined_more (σ : dialog_service_handler)
    (batch : Nat) (it_id : Nat) :
    Except rpc_exception rpc_iterator_handle × dialog_service_handler :=
  match alist_lookup σ.combined it_id with
  | none => (.error (.invalid_operation "No such iterator"), σ)
  | some res =>
    (.ok { desc := { data_type := .RPC_RECORD, handler_id := σ.handler_id,
                     id := it_id, type := .RPC_COMBINED },
           data := String.join (res.take batch),
           num_entries := (res.take batch).length,
           has_more := !(res.drop batch).isEmpty },
     { σ with combined := alist_update σ.combined it_id (res.drop batch) })

/-- `alerts_more`: pull up to `batch` alerts, appending each alert's
`to_string()` followed by one newline character. -/
def dialog_service_handler.alerts_more (σ : dialog_service_handler)
    (batch : Nat) (it_id : Nat) :
    Except rpc_exception rpc_iterator_handle × dialog_service_handler :=
  match alist_lookup σ.alerts it_id with
  | none => (.error (.invalid_operation "No such iterator"), σ)
  | some res =>
    (.ok { desc := { data_type := .RPC_ALERT, handler_id := σ.handler_id,
                     id := it_id, type := .RPC_ALERTS },
           data := String.join ((res.take batch).map (fun a => a.to_string ++ "\n")),
           num_entries := (res.take batch).length,
           has_more := !(res.drop batch).isEmpty },
     { σ with alerts := alist_update σ.alerts it_id (res.drop batch) })

/-- `get_more(desc)`: validate `desc.handler_id` against the session's, then
dispatch on `desc.type`. -/
def dialog_service_handler.get_more (σ : dialog_service_handler)
    (batch : Nat) (desc : rpc_iterator_descriptor) :
    Except rpc_exception rpc_iterator_handle × dialog_service_handler :=
  if desc.handler_id ≠ σ.handler_id then
    (.error (.invalid_operation "handler_id mismatch"), σ)
  else
    match desc.type with
    | .RPC_ADHOC => σ.adhoc_more batch desc.id
    | .RPC_PREDEF => σ.predef_more batch desc.id
    | .RPC_COMBINED => σ.combined_more batch desc.id
    | .RPC_ALERTS => σ.alerts_more batch desc.id

/-- `add_filter`: both `management_exception` and `parse_exception` from the
table are rethrown as `rpc_management_exception` with the same message. -/
def dialog_service_handler.add_filter (σ : dialog_service_handler)
    (filter_name filter_expr : String) :
    Except rpc_exception Unit × dialog_service_handler :=
  match σ.table.add_filter filter_name filter_expr with
  | .ok _ => (.ok (), σ)
  | .error (.management msg) => (.error (.management msg), σ)
  | .error (.parse msg) => (.error (.management msg), σ)

/-- `add_trigger`: both `management_exception` and `parse_exception` from the
table are rethrown as `rpc_management_exception` with the same message. -/
def dialog_service_handler.add_trigger (σ : dialog_service_handler)
    (trigger_name filter_name trigger_expr : String) :
    Except rpc_exception Unit × dialog_service_handler :=
  match σ.table.add_trigger trigger_name filter_name trigger_expr with
  | .ok _ => (.ok (), σ)
  | .error (.management msg) => (.error (.management msg), σ)
  | .error (.parse msg) => (.error (.management msg), σ)

/-- `adhoc_filter(expr)`: allocate a cursor id, run the table's
`execute_filter` (a `parse_exception` becomes `InvalidOperation` with the same
message), insert the stream (an already-present id yields
`InvalidOperation("Duplicate rpc_iterator_id assigned")`), then return the
first page via `adhoc_more`. -/
def dialog_service_handler.adhoc_filter (σ : dialog_service_handler)
    (batch : Nat) (filter_expr : String) :
    Except rpc_exception rpc_iterator_handle × dialog_service_handler :=
  let p := σ.new_iterator_id
  let it_id := p.1
  let σ1 := p.2
  match σ1.table.execute_filter filter_expr with
  | .error msg => (.error (.invalid_operation msg), σ1)
  | .ok res =>
    if alist_contains σ1.adhoc it_id then
      (.error (.invalid_operation "Duplicate rpc_iterator_id assigned"), σ1)
    else
      dialog_service_handler.adhoc_more
        { σ1 with adhoc := (it_id, res) :: σ1.adhoc } batch it_id

/-- `predef_filter(name, begin_ms, end_ms)`: allocate a cursor id, query the
named filter's time index, insert the stream, return the first page. -/
def dialog_service_handler.predef_filter (σ : dialog_service_handler)
    (batch : Nat) (filter_name : String) (begin_ms end_ms : Int) :
    Except rpc_exception rpc_iterator_handle × dialog_service_handler :=
  let p := σ.new_iterator_id
  let it_id := p.1
  let σ1 := p.2
  let res := σ1.table.query_filter filter_name begin_ms end_ms
  if alist_contains σ1.predef it_id then
    (.error (.invalid_operation "Duplicate rpc_iterator_id assigned"), σ1)
  else
    dialog_service_handler.predef_more
      { σ1 with predef := (it_id, res) :: σ1.predef } batch it_id

/-- `combined_filter(name, expr, begin_ms, end_ms)`: like `adhoc_filter` but
over the expression-taking `query_filter` overload. -/
def dialog_service_handler.combined_filter (σ : dialog_service_handler)
    (batch : Nat) (filter_name filter_expr : String) (begin_ms end_ms : Int) :
    Except rpc_exception rpc_iterator_handle × dialog_service_handler :=
  let p := σ.new_iterator_id
  let it_id := p.1
  let σ1 := p.2
  match σ1.table.query_filter_expr filter_name filter_expr begin_ms end_ms with
  | .error msg => (.error (.invalid_operation msg), σ1)
  | .ok res =>
    if alist_contains σ1.combined it_id then
      (.error (.invalid_operation "Duplicate rpc_iterator_id assigned"), σ1)
    else
      dialog_service_handler.combined_more
        { σ1 with combined := (it_id, res) :: σ1.combined } batch it_id

/-- `alerts_by_time(begin_ms, end_ms)`: allocate a cursor id, store the alert
iterator range, return the first page via `alerts_more`. -/
def dialog_service_handler.alerts_by_time (σ : dialog_service_handler)
    (batch : Nat) (begin_ms end_ms : Int) :
    Except rpc_exception rpc_iterator_handle × dialog_service_handler :=
  let p := σ.new_iterator_id
  let it_id := p.1
  let σ1 := p.2
  let res := σ1.table.get_alerts begin_ms end_ms
  if alist_contains σ1.alerts it_id then
    (.error (.invalid_operation "Duplicate rpc_iterator_id assigned"), σ1)
  else
    dialog_service_handler.alerts_more
      { σ1 with alerts := (it_id, res) :: σ1.alerts } batch it_id

/-- One client request touching the session's cursor state: the four
cursor-open calls and `get_more`. -/
inductive session_op
  | op_adhoc (filter_expr : String)
  | op_predef (filter_name : String) (begin_ms end_ms : Int)
  | op_combined (filter_name filter_expr : String) (begin_ms end_ms : Int)
  | op_alerts (begin_ms end_ms : Int)
  | op_more (desc : rpc_iterator_descriptor)

/-- Whether the request is one of the four cursor-open calls. -/
def session_op.is_open : session_op → Bool
  | .op_more _ => false
  | _ => true

/-- State transition of the handler session under one request (the state
component of the corresponding member function). -/
def dialog_service_handler.step (σ : dialog_service_handler) (batch : Nat) :
    session_op → dialog_service_handler
  | .op_adhoc e => (σ.adhoc_filter batch e).2
  | .op_predef n b e => (σ.predef_filter batch n b e).2
  | .op_combined n x b e => (σ.combined_filter batch n x b e).2
  | .op_alerts b e => (σ.alerts_by_time batch b e).2
  | .op_more d => (σ.get_more batch d).2

/-- Every cursor id present in any of the four maps is below the session's
cursor-id counter. -/
def ids_bounded (σ : dialog_service_handler) : Prop :=
  (∀ k ∈ alist_keys σ.adhoc, k < σ.iterator_id) ∧
  (∀ k ∈ alist_keys σ.predef, k < σ.iterator_id) ∧
  (∀ k ∈ alist_keys σ.combined, k < σ.iterator_id) ∧
  (∀ k ∈ alist_keys σ.alerts, k < σ.iterator_id)

/-- Concatenation of the `data` fields of a page and of all pages a client
obtains by re-invoking `get_more` with the returned descriptor while
`has_more` holds, stopping after `fuel` pages. -/
def drain_pages (batch : Nat) :
    Nat → Except rpc_exception rpc_iterator_handle × dialog_service_handler →
    String
  | 0, _ => ""
  | _ + 1, (.error _, _) => ""
  | fuel + 1, (.ok h, σ) =>
    h.data ++ (if h.has_more then drain_pages batch fuel (σ.get_more batch h.desc) else "")

section AListLemmas

variable {α : Type}

theorem alist_lookup_update_self (m : List (Nat × α)) (k : Nat) (x : α)
    (h : (alist_lookup m k).isSome) :
    alist_lookup (alist_update m k x) k = some x := by
  induction m with
  | nil => simp [alist_lookup] at h
  | cons p t ih =>
    by_cases hk : k = p.1
    · simp [alist_lookup, alist_update, hk]
    · simp [alist_lookup, alist_update, hk] at h ⊢
      exact ih h

theorem alist_keys_update (m : List (Nat × α)) (k : Nat) (x : α) :
    alist_keys (alist_update m k x) = alist_keys m := by
  induction m with
  | nil => rfl
  | cons p t ih =>
    by_cases hk : k = p.1
    · simp [alist_update, alist_keys, hk]
    · simp [alist_update, alist_keys, hk] at ih ⊢
      exact ih

theorem alist_lookup_mem_keys {m : List (Nat × α)} {k : Nat} {v : α}
    (h : alist_lookup m k = some v) : k ∈ alist_keys m := by
  induction m with
  | nil => simp [alist_lookup] at h
  | cons p t ih =>
    by_cases hk : k = p.1
    · simp [alist_keys, hk]
    · simp [alist_lookup, hk] at h
      simp [alist_keys]
      exact .inr (by simpa [alist_keys] using ih h)

theorem alist_lookup_eq_none_of_lt {m : List (Nat × α)} {i : Nat}
    (h : ∀ k ∈ alist_keys m, k < i) : alist_lookup m i = none := by
  cases hl : alist_lookup m i with
  | none => rfl
  | some v => exact absurd (h i (alist_lookup_mem_keys hl)) (by omega)

theorem alist_lookup_cons_self (m : List (Nat × α)) (k : Nat) (x : α) :
    alist_lookup ((k, x) :: m) k = some x := by
  simp [alist_lookup]

end AListLemmas

theorem string_join_append (l₁ l₂ : List String) :
    String.join (l₁ ++ l₂) = String.join l₁ ++ String.join l₂ := by
  simp [String.join_eq]
  rfl

/-- A concrete table used to exercise the handler: the expression `"bad("`
fails to compile with message `"parse failure"`; everything else yields fixed
streams. -/
def table0 : dialog_table :=
  { add_filter := fun _ e =>
      if e = "bad(" then .error (.parse "parse failure") else .ok (),
    add_trigger := fun _ _ e =>
      if e = "bad(" then .error (.parse "parse failure") else .ok (),
    execute_filter := fun e =>
      if e = "bad(" then .error "parse failure" else .ok ["aa", "bb", "cc"],
    query_filter := fun _ _ _ => ["dd", "ee"],
    query_filter_expr := fun _ e _ _ =>
      if e = "bad(" then .error "parse failure" else .ok ["ff"],
    get_alerts := fun _ _ => [⟨"t1", 5, 3, "m1"⟩, ⟨"t2", 6, 4, "m2"⟩] }

/-- A concrete mid-session handler state over `table0`: handler id 7, three
cursors already opened. -/
def handler0 : dialog_service_handler :=
  { handler_id := 7, table := table0, iterator_id := 3,
    adhoc := [(0, ["aa", "bb", "cc"])], predef := [(1, ["dd", "ee"])],
    combined := [], alerts := [(2, [⟨"t1", 5, 3, "m1"⟩])] }

/-- A handler state in the defensive situation the open calls guard against:
the next cursor id to be allocated is already bound in every map. -/
def handler_dup : dialog_service_handler :=
  { handler_id := 7, table := table0, iterator_id := 0,
    adhoc := [(0, [])], predef := [(0, [])], combined := [(0, [])],
    alerts := [(0, [])] }

/-- A handler state like `handler0` in which cursor 0's stream is already
exhausted. -/
def handler_done : dialog_service_handler :=
  { handler_id := 7, table := table0, iterator_id := 3,
    adhoc := [(0, [])], predef := [(1, ["dd", "ee"])],
    combined := [], alerts := [(2, [⟨"t1", 5, 3, "m1"⟩])] }

/-- The descriptor of cursor 0 of `handler0` / `handler_done`. -/
def desc_drain : rpc_iterator_descriptor :=
  { data_type := .RPC_RECORD, handler_id := 7, id := 0, type := .RPC_ADHOC }

/-- A descriptor whose handler id does not match `handler0`. -/
def desc_bad : rpc_iterator_descriptor :=
  { data_type := .RPC_RECORD, handler_id := 3, id := 0, type := .RPC_ADHOC }

/-- A well-addressed descriptor for `handler0` whose cursor id is unknown. -/
def desc_missing : rpc_iterator_descriptor :=
  { data_type := .RPC_RECORD, handler_id := 7, id := 99, type := .RPC_ADHOC }

section StateShape

variable (σ : dialog_service_handler) (batch : Nat)

theorem adhoc_more_snd (i : Nat) :
    (σ.adhoc_more batch i).2.handler_id = σ.handler_id ∧
    (σ.adhoc_more batch i).2.iterator_id = σ.iterator_id ∧
    (σ.adhoc_more batch i).2.table = σ.table ∧
    alist_keys (σ.adhoc_more batch i).2.adhoc = alist_keys σ.adhoc ∧
    (σ.adhoc_more batch i).2.predef = σ.predef ∧
    (σ.adhoc_more batch i).2.combined = σ.combined ∧
    (σ.adhoc_more batch i).2.alerts = σ.alerts := by
  cases h : alist_lookup σ.adhoc i <;>
    simp [dialog_service_handler.adhoc_more, h, alist_keys_update]

theorem predef_more_snd (i : Nat) :
    (σ.predef_more batch i).2.handler_id = σ.handler_id ∧
    (σ.predef_more batch i).2.iterator_id = σ.iterator_id ∧
    (σ.predef_more batch i).2.table = σ.table ∧
    (σ.predef_more batch i).2.adhoc = σ.adhoc ∧
    alist_keys (σ.predef_more batch i).2.predef = alist_keys σ.predef ∧
    (σ.predef_more batch i).2.combined = σ.combined ∧
    (σ.predef_more batch i).2.alerts = σ.alerts := by
  cases h : alist_lookup σ.predef i <;>
    simp [dialog_service_handler.predef_more, h, alist_keys_update]

theorem combined_more_snd (i : Nat) :
    (σ.combined_more batch i).2.handler_id = σ.handler_id ∧
    (σ.combined_more batch i).2.iterator_id = σ.iterator_id ∧
    (σ.combined_more batch i).2.table = σ.table ∧
    (σ.combined_more batch i).2.adhoc = σ.adhoc ∧
    (σ.combined_more batch i).2.predef = σ.predef ∧
    alist_keys (σ.combined_more batch i).2.combined = alist_keys σ.combined ∧
    (σ.combined_more batch i).2.alerts = σ.alerts := by
  cases h : alist_lookup σ.combined i <;>
    simp [dialog_service_handler.combined_more, h, alist_keys_update]

theorem alerts_more_snd (i : Nat) :
    (σ.alerts_more batch i).2.handler_id = σ.handler_id ∧
    (σ.alerts_more batch i).2.iterator_id = σ.iterator_id ∧
    (σ.alerts_more batch i).2.table = σ.table ∧
    (σ.alerts_more batch i).2.adhoc = σ.adhoc ∧
    (σ.alerts_more batch i).2.predef = σ.predef ∧
    (σ.alerts_more batch i).2.combined = σ.combined ∧
    alist_keys (σ.alerts_more batch i).2.alerts = alist_keys σ.alerts := by
  cases h : alist_lookup σ.alerts i <;>
    simp [dialog_service_handler.alerts_more, h, alist_keys_update]

theorem adhoc_filter_snd (e : String) :
    (σ.adhoc_filter batch e).2.handler_id = σ.handler_id ∧
    (σ.adhoc_filter batch e).2.iterator_id = σ.iterator_id + 1 ∧
    ((σ.adhoc_filter batch e).2.adhoc = σ.adhoc ∨
      alist_keys (σ.adhoc_filter batch e).2.adhoc =
        σ.iterator_id :: alist_keys σ.adhoc) ∧
    (σ.adhoc_filter batch e).2.predef = σ.predef ∧
    (σ.adhoc_filter batch e).2.combined = σ.combined ∧
    (σ.adhoc_filter batch e).2.alerts = σ.alerts := by
  simp only [dialog_service_handler.adhoc_filter,
    dialog_service_handler.new_iterator_id]
  cases he : σ.table.execute_filter e with
  | error msg => simp [he]
  | ok res =>
    simp only [he]
    by_cases hc : alist_contains σ.adhoc σ.iterator_id
    · simp [hc]
    · have h := adhoc_more_snd
        { σ with iterator_id := σ.iterator_id + 1,
                 adhoc := (σ.iterator_id, res) :: σ.adhoc } batch σ.iterator_id
      simp only [alist_keys] at h ⊢
      simp [hc, h, alist_keys]

theorem predef_filter_snd (n : String) (b e : Int) :
    (σ.predef_filter batch n b e).2.handler_id = σ.handler_id ∧
    (σ.predef_filter batch n b e).2.iterator_id = σ.iterator_id + 1 ∧
    (σ.predef_filter batch n b e).2.adhoc = σ.adhoc ∧
    ((σ.predef_filter batch n b e).2.predef = σ.predef ∨
      alist_keys (σ.predef_filter batch n b e).2.predef =
        σ.iterator_id :: alist_keys σ.predef) ∧
    (σ.predef_filter batch n b e).2.combined = σ.combined ∧
    (σ.predef_filter batch n b e).2.alerts = σ.alerts := by
  simp only [dialog_service_handler.predef_filter,
    dialog_service_handler.new_iterator_id]
  by_cases hc : alist_contains σ.predef σ.iterator_id
  · simp [hc]
  · have h := predef_more_snd
      { σ with iterator_id := σ.iterator_id + 1,
               predef := (σ.iterator_id, σ.table.query_filter n b e) :: σ.predef }
      batch σ.iterator_id
    simp only [alist_keys] at h ⊢
    simp [hc, h, alist_keys]

theorem combined_filter_snd (n x : String) (b e : Int) :
    (σ.combined_filter batch n x b e).2.handler_id = σ.handler_id ∧
    (σ.combined_filter batch n x b e).2.iterator_id = σ.iterator_id + 1 ∧
    (σ.combined_filter batch n x b e).2.adhoc = σ.adhoc ∧
    (σ.combined_filter batch n x b e).2.predef = σ.predef ∧
    ((σ.combined_filter batch n x b e).2.combined = σ.combined ∨
      alist_keys (σ.combined_filter batch n x b e).2.combined =
        σ.iterator_id :: alist_keys σ.combined) ∧
    (σ.combined_filter batch n x b e).2.alerts = σ.alerts := by
  simp only [dialog_service_handler.combined_filter,
    dialog_service_handler.new_iterator_id]
  cases he : σ.table.query_filter_expr n x b e with
  | error msg => simp [he]
  | ok res =>
    simp only [he]
    by_cases hc : alist_contains σ.combined σ.iterator_id
    · simp [hc]
    · have h := combined_more_snd
        { σ with iterator_id := σ.iterator_id + 1,
                 combined := (σ.iterator_id, res) :: σ.combined } batch σ.iterator_id
      simp only [alist_keys] at h ⊢
      simp [hc, h, alist_keys]

theorem alerts_by_time_snd (b e : Int) :
    (σ.alerts_by_time batch b e).2.handler_id = σ.handler_id ∧
    (σ.alerts_by_time batch b e).2.iterator_id = σ.iterator_id + 1 ∧
    (σ.alerts_by_time batch b e).2.adhoc = σ.adhoc ∧
    (σ.alerts_by_time batch b e).2.predef = σ.predef ∧
    (σ.alerts_by_time batch b e).2.combined = σ.combined ∧
    ((σ.alerts_by_time batch b e).2.alerts = σ.alerts ∨
      alist_keys (σ.alerts_by_time batch b e).2.alerts =
        σ.iterator_id :: alist_keys σ.alerts) := by
  simp only [dialog_service_handler.alerts_by_time,
    dialog_service_handler.new_iterator_id]
  by_cases hc : alist_contains σ.alerts σ.iterator_id
  · simp [hc]
  · have h := alerts_more_snd
      { σ with iterator_id := σ.iterator_id + 1,
               alerts := (σ.iterator_id, σ.table.get_alerts b e) :: σ.alerts }
      batch σ.iterator_id
    simp only [alist_keys] at h ⊢
    simp [hc, h, alist_keys]

theorem get_more_snd (desc : rpc_iterator_descriptor) :
    (σ.get_more batch desc).2.handler_id = σ.handler_id ∧
    (σ.get_more batch desc).2.iterator_id = σ.iterator_id ∧
    alist_keys (σ.get_more batch desc).2.adhoc = alist_keys σ.adhoc ∧
    alist_keys (σ.get_more batch desc).2.predef = alist_keys σ.predef ∧
    alist_keys (σ.get_more batch desc).2.combined = alist_keys σ.combined ∧
    alist_keys (σ.get_more batch desc).2.alerts = alist_keys σ.alerts := by
  by_cases hh : desc.handler_id = σ.handler_id
  · cases ht : desc.type
    · obtain ⟨h1, h2, h3, h4, h5, h6, h7⟩ := adhoc_more_snd σ batch desc.id
      simp [dialog_service_handler.get_more, hh, ht, h1, h2, h4, h5, h6, h7]
    · obtain ⟨h1, h2, h3, h4, h5, h6, h7⟩ := predef_more_snd σ batch desc.id
      simp [dialog_service_handler.get_more, hh, ht, h1, h2, h4, h5, h6, h7]
    · obtain ⟨h1, h2, h3, h4, h5, h6, h7⟩ := combined_more_snd σ batch desc.id
      simp [dialog_service_handler.get_more, hh, ht, h1, h2, h4, h5, h6, h7]
    · obtain ⟨h1, h2, h3, h4, h5, h6, h7⟩ := alerts_more_snd σ batch desc.id
      simp [dialog_service_handler.get_more, hh, ht, h1, h2, h4, h5, h6, h7]
  · simp [dialog_service_handler.get_more, hh]

end StateShape

/-- C1: `get_more` with a descriptor whose handler id differs from the
session's raises `InvalidOperation("handler_id mismatch")` and leaves the
session state unchanged; with a matching handler id it dispatches to the
`_more` routine of the descriptor's kind (ADHOC, PREDEF, COMBINED or
ALERTS). -/
theorem get_more_checks_handler_and_dispatches (batch : Nat)
    (σ : dialog_service_handler) (desc : rpc_iterator_descriptor) :
    (desc.handler_id ≠ σ.handler_id →
      σ.get_more batch desc =
        (.error (.invalid_operation "handler_id mismatch"), σ)) ∧
    (desc.handler_id = σ.handler_id →
      σ.get_more batch desc =
        match desc.type with
        | .RPC_ADHOC => σ.adhoc_more batch desc.id
        | .RPC_PREDEF => σ.predef_more batch desc.id
        | .RPC_COMBINED => σ.combined_more batch desc.id
        | .RPC_ALERTS => σ.alerts_more batch desc.id) := by
  constructor
  · intro h
    simp [dialog_service_handler.get_more, h]
  · intro h
    simp [dialog_service_handler.get_more, h]

/-- Witness for C1 at a concrete session with handler id 7 and a descriptor
carrying handler id 3. -/
theorem get_more_checks_handler_witness :
    desc_bad.handler_id ≠ handler0.handler_id ∧
    handler0.get_more 2 desc_bad =
      (.error (.invalid_operation "handler_id mismatch"), handler0) :=
  ⟨by decide,
   (get_more_checks_handler_and_dispatches 2 handler0 desc_bad).1 (by decide)⟩

/-- C4: a filter or trigger expression that fails to compile surfaces from
`add_filter` and `add_trigger` as a Management error carrying the parse
message, and from `adhoc_filter` and `combined_filter` as InvalidOperation
carrying the parse message. -/
theorem parse_errors_surface (batch : Nat) (σ : dialog_service_handler)
    (fname tname expr msg : String) (begin_ms end_ms : Int) :
    (σ.table.add_filter fname expr = .error (.parse msg) →
      σ.add_filter fname expr = (.error (.management msg), σ)) ∧
    (σ.table.add_trigger tname fname expr = .error (.parse msg) →
      σ.add_trigger tname fname expr = (.error (.management msg), σ)) ∧
    (σ.table.execute_filter expr = .error msg →
      (σ.adhoc_filter batch expr).1 = .error (.invalid_operation msg)) ∧
    (σ.table.query_filter_expr fname expr begin_ms end_ms = .error msg →
      (σ.combined_filter batch fname expr begin_ms end_ms).1 =
        .error (.invalid_operation msg)) := by
  refine ⟨fun h => ?_, fun h => ?_, fun h => ?_, fun h => ?_⟩
  · simp [dialog_service_handler.add_filter, h]
  · simp [dialog_service_handler.add_trigger, h]
  · simp [dialog_service_handler.adhoc_filter,
      dialog_service_handler.new_iterator_id, h]
  · simp [dialog_service_handler.combined_filter,
      dialog_service_handler.new_iterator_id, h]

/-- Witness for C4 on `table0`, whose expression `"bad("` fails to compile
with message `"parse failure"`. -/
theorem parse_errors_surface_witness :
    handler0.add_filter "f" "bad(" = (.error (.management "parse failure"), handler0) ∧
    handler0.add_trigger "t" "f" "bad(" = (.error (.management "parse failure"), handler0) ∧
    (handler0.adhoc_filter 2 "bad(").1 = .error (.invalid_operation "parse failure") ∧
    (handler0.combined_filter 2 "f" "bad(" 0 10).1 = .error (.invalid_operation "parse failure") :=
  ⟨(parse_errors_surface 2 handler0 "f" "t" "bad(" "parse failure" 0 10).1 rfl,
   (parse_errors_surface 2 handler0 "f" "t" "bad(" "parse failure" 0 10).2.1 rfl,
   (parse_errors_surface 2 handler0 "f" "t" "bad(" "parse failure" 0 10).2.2.1 rfl,
   (parse_errors_surface 2 handler0 "f" "t" "bad(" "parse failure" 0 10).2.2.2 rfl⟩

/-- C5: `get_more` with a matching handler id but a cursor id absent from the
map of the descriptor's kind raises `InvalidOperation("No such iterator")`
and leaves the session state unchanged. -/
theorem get_more_unknown_cursor (batch : Nat) (σ : dialog_service_handler)
    (desc : rpc_iterator_descriptor)
    (hh : desc.handler_id = σ.handler_id)
    (habs : match desc.type with
            | .RPC_ADHOC => alist_lookup σ.adhoc desc.id = none
            | .RPC_PREDEF => alist_lookup σ.predef desc.id = none
            | .RPC_COMBINED => alist_lookup σ.combined desc.id = none
            | .RPC_ALERTS => alist_lookup σ.alerts desc.id = none) :
    σ.get_more batch desc = (.error (.invalid_operation "No such iterator"), σ) := by
  cases ht : desc.type <;> rw [ht] at habs <;> simp only [] at habs <;>
    simp [dialog_service_handler.get_more, hh, ht,
      dialog_service_handler.adhoc_more, dialog_service_handler.predef_more,
      dialog_service_handler.combined_more, dialog_service_handler.alerts_more,
      habs]

/-- Witness for C5: `handler0` holds no cursor with id 99. -/
theorem get_more_unknown_cursor_witness :
    desc_missing.handler_id = handler0.handler_id ∧
    handler0.get_more 2 desc_missing =
      (.error (.invalid_operation "No such iterator"), handler0) :=
  ⟨by decide, get_more_unknown_cursor 2 handler0 desc_missing (by decide) rfl⟩

/-- C6: cursor ids are allocated by the single per-session counter
`iterator_id_`, which the constructor initialises to 0 and which every
cursor-open call of any kind advances by exactly one (and `get_more` never
advances); every id bound in any of the four maps stays below the counter
under every request, so the next allocated id is absent from all four maps:
ids are unique across the maps and never reused. -/
theorem iterator_id_counter_unique (batch : Nat) (t : dialog_table)
    (σ : dialog_service_handler) (op : session_op) :
    (dialog_service_handler.init t).iterator_id = 0 ∧
    ids_bounded (dialog_service_handler.init t) ∧
    (op.is_open = true → (σ.step batch op).iterator_id = σ.iterator_id + 1) ∧
    (op.is_open = false → (σ.step batch op).iterator_id = σ.iterator_id) ∧
    (ids_bounded σ → ids_bounded (σ.step batch op)) ∧
    (ids_bounded σ →
      alist_lookup σ.adhoc σ.iterator_id = none ∧
      alist_lookup σ.predef σ.iterator_id = none ∧
      alist_lookup σ.combined σ.iterator_id = none ∧
      alist_lookup σ.alerts σ.iterator_id = none) := by
  refine ⟨rfl, ?_, ?_, ?_, ?_, ?_⟩
  · exact ⟨by simp [dialog_service_handler.init, alist_keys],
      by simp [dialog_service_handler.init, alist_keys],
      by simp [dialog_service_handler.init, alist_keys],
      by simp [dialog_service_handler.init, alist_keys]⟩
  · intro ho
    cases op with
    | op_adhoc e => exact (adhoc_filter_snd σ batch e).2.1
    | op_predef n b e => exact (predef_filter_snd σ batch n b e).2.1
    | op_combined n x b e => exact (combined_filter_snd σ batch n x b e).2.1
    | op_alerts b e => exact (alerts_by_time_snd σ batch b e).2.1
    | op_more d => simp [session_op.is_open] at ho
  · intro ho
    cases op with
    | op_more d => exact (get_more_snd σ batch d).2.1
    | op_adhoc e => simp [session_op.is_open] at ho
    | op_predef n b e => simp [session_op.is_open] at ho
    | op_combined n x b e => simp [session_op.is_open] at ho
    | op_alerts b e => simp [session_op.is_open] at ho
  · rintro ⟨ha, hp, hc, hl⟩
    cases op with
    | op_adhoc e =>
      obtain ⟨_, hi, hk, h4, h5, h6⟩ := adhoc_filter_snd σ batch e
      refine ⟨?_, ?_, ?_, ?_⟩ <;> simp only [dialog_service_handler.step] <;> rw [hi]
      · rcases hk with hk | hk
        · rw [hk]; exact fun k hm => Nat.lt_succ_of_lt (ha k hm)
        · rw [hk]
          intro k hm
          rcases List.mem_cons.mp hm with rfl | hm'
          · omega
          · exact Nat.lt_succ_of_lt (ha k hm')
      · rw [h4]; exact fun k hm => Nat.lt_succ_of_lt (hp k hm)
      · rw [h5]; exact fun k hm => Nat.lt_succ_of_lt (hc k hm)
      · rw [h6]; exact fun k hm => Nat.lt_succ_of_lt (hl k hm)
    | op_predef n b e =>
      obtain ⟨_, hi, h3, hk, h5, h6⟩ := predef_filter_snd σ batch n b e
      refine ⟨?_, ?_, ?_, ?_⟩ <;> simp only [dialog_service_handler.step] <;> rw [hi]
      · rw [h3]; exact fun k hm => Nat.lt_succ_of_lt (ha k hm)
      · rcases hk with hk | hk
        · rw [hk]; exact fun k hm => Nat.lt_succ_of_lt (hp k hm)
        · rw [hk]
          intro k hm
          rcases List.mem_cons.mp hm with rfl | hm'
          · omega
          · exact Nat.lt_succ_of_lt (hp k hm')
      · rw [h5]; exact fun k hm => Nat.lt_succ_of_lt (hc k hm)
      · rw [h6]; exact fun k hm => Nat.lt_succ_of_lt (hl k hm)
    | op_combined n x b e =>
      obtain ⟨_, hi, h3, h4, hk, h6⟩ := combined_filter_snd σ batch n x b e
      refine ⟨?_, ?_, ?_, ?_⟩ <;> simp only [dialog_service_handler.step] <;> rw [hi]
      · rw [h3]; exact fun k hm => Nat.lt_succ_of_lt (ha k hm)
      · rw [h4]; exact fun k hm => Nat.lt_succ_of_lt (hp k hm)
      · rcases hk with hk | hk
        · rw [hk]; exact fun k hm => Nat.lt_succ_of_lt (hc k hm)
        · rw [hk]
          intro k hm
          rcases List.mem_cons.mp hm with rfl | hm'
          · omega
          · exact Nat.lt_succ_of_lt (hc k hm')
      · rw [h6]; exact fun k hm => Nat.lt_succ_of_lt (hl k hm)
    | op_alerts b e =>
      obtain ⟨_, hi, h3, h4, h5, hk⟩ := alerts_by_time_snd σ batch b e
      refine ⟨?_, ?_, ?_, ?_⟩ <;> simp only [dialog_service_handler.step] <;> rw [hi]
      · rw [h3]; exact fun k hm => Nat.lt_succ_of_lt (ha k hm)
      · rw [h4]; exact fun k hm => Nat.lt_succ_of_lt (hp k hm)
      · rw [h5]; exact fun k hm => Nat.lt_succ_of_lt (hc k hm)
      · rcases hk with hk | hk
        · rw [hk]; exact fun k hm => Nat.lt_succ_of_lt (hl k hm)
        · rw [hk]
          intro k hm
          rcases List.mem_cons.mp hm with rfl | hm'
          · omega
          · exact Nat.lt_succ_of_lt (hl k hm')
    | op_more d =>
      obtain ⟨_, hi, h3, h4, h5, h6⟩ := get_more_snd σ batch d
      simp only [dialog_service_handler.step, ids_bounded]
      rw [hi, h3, h4, h5, h6]
      exact ⟨ha, hp, hc, hl⟩
  · rintro ⟨ha, hp, hc, hl⟩
    exact ⟨alist_lookup_eq_none_of_lt ha, alist_lookup_eq_none_of_lt hp,
      alist_lookup_eq_none_of_lt hc, alist_lookup_eq_none_of_lt hl⟩

/-- Witness for C6 at `handler0` (ids 0, 1, 2 in use, counter 3) under an
ad-hoc open request. -/
theorem iterator_id_counter_unique_witness :
    (session_op.op_adhoc "e>0").is_open = true ∧
    ids_bounded handler0 ∧
    (handler0.step 2 (.op_adhoc "e>0")).iterator_id = handler0.iterator_id + 1 ∧
    ids_bounded (handler0.step 2 (.op_adhoc "e>0")) ∧
    alist_lookup handler0.adhoc handler0.iterator_id = none :=
  ⟨by decide, ⟨by decide, by decide, by decide, by decide⟩,
   (iterator_id_counter_unique 2 table0 handler0 (.op_adhoc "e>0")).2.2.1 (by decide),
   (iterator_id_counter_unique 2 table0 handler0 (.op_adhoc "e>0")).2.2.2.2.1
     ⟨by decide, by decide, by decide, by decide⟩,
   ((iterator_id_counter_unique 2 table0 handler0 (.op_adhoc "e>0")).2.2.2.2.2
     ⟨by decide, by decide, by decide, by decide⟩).1⟩

/-- C10: no request ever removes a cursor id from any of the session's four
maps, and a `get_more` addressed (with matching handler id) at a cursor whose
stream is exhausted succeeds with `num_entries = 0`, empty `data` and
`has_more = false` instead of raising "No such iterator". -/
theorem cursors_persist_and_exhausted_page_empty (batch : Nat)
    (σ : dialog_service_handler) (op : session_op) (k : Nat)
    (desc : rpc_iterator_descriptor) :
    ((k ∈ alist_keys σ.adhoc → k ∈ alist_keys (σ.step batch op).adhoc) ∧
     (k ∈ alist_keys σ.predef → k ∈ alist_keys (σ.step batch op).predef) ∧
     (k ∈ alist_keys σ.combined → k ∈ alist_keys (σ.step batch op).combined) ∧
     (k ∈ alist_keys σ.alerts → k ∈ alist_keys (σ.step batch op).alerts)) ∧
    (desc.handler_id = σ.handler_id →
      (desc.type = .RPC_ADHOC → alist_lookup σ.adhoc desc.id = some [] →
        (σ.get_more batch desc).1 =
          .ok { desc := { data_type := .RPC_RECORD, handler_id := σ.handler_id,
                          id := desc.id, type := .RPC_ADHOC },
                data := "", num_entries := 0, has_more := false }) ∧
      (desc.type = .RPC_PREDEF → alist_lookup σ.predef desc.id = some [] →
        (σ.get_more batch desc).1 =
          .ok { desc := { data_type := .RPC_RECORD, handler_id := σ.handler_id,
                          id := desc.id, type := .RPC_PREDEF },
                data := "", num_entries := 0, has_more := false }) ∧
      (desc.type = .RPC_COMBINED → alist_lookup σ.combined desc.id = some [] →
        (σ.get_more batch desc).1 =
          .ok { desc := { data_type := .RPC_RECORD, handler_id := σ.handler_id,
                          id := desc.id, type := .RPC_COMBINED },
                data := "", num_entries := 0, has_more := false }) ∧
      (desc.type = .RPC_ALERTS → alist_lookup σ.alerts desc.id = some [] →
        (σ.get_more batch desc).1 =
          .ok { desc := { data_type := .RPC_ALERT, handler_id := σ.handler_id,
                          id := desc.id, type := .RPC_ALERTS },
                data := "", num_entries := 0, has_more := false })) := by
  constructor
  · cases op with
    | op_adhoc e =>
      obtain ⟨_, _, hk, h4, h5, h6⟩ := adhoc_filter_snd σ batch e
      simp only [dialog_service_handler.step]
      refine ⟨?_, by rw [h4]; exact id, by rw [h5]; exact id, by rw [h6]; exact id⟩
      rcases hk with hk | hk
      · rw [hk]; exact id
      · rw [hk]; exact fun hm => List.mem_cons_of_mem _ hm
    | op_predef n b e =>
      obtain ⟨_, _, h3, hk, h5, h6⟩ := predef_filter_snd σ batch n b e
      simp only [dialog_service_handler.step]
      refine ⟨by rw [h3]; exact id, ?_, by rw [h5]; exact id, by rw [h6]; exact id⟩
      rcases hk with hk | hk
      · rw [hk]; exact id
      · rw [hk]; exact fun hm => List.mem_cons_of_mem _ hm
    | op_combined n x b e =>
      obtain ⟨_, _, h3, h4, hk, h6⟩ := combined_filter_snd σ batch n x b e
      simp only [dialog_service_handler.step]
      refine ⟨by rw [h3]; exact id, by rw [h4]; exact id, ?_, by rw [h6]; exact id⟩
      rcases hk with hk | hk
      · rw [hk]; exact id
      · rw [hk]; exact fun hm => List.mem_cons_of_mem _ hm
    | op_alerts b e =>
      obtain ⟨_, _, h3, h4, h5, hk⟩ := alerts_by_time_snd σ batch b e
      simp only [dialog_service_handler.step]
      refine ⟨by rw [h3]; exact id, by rw [h4]; exact id, by rw [h5]; exact id, ?_⟩
      rcases hk with hk | hk
      · rw [hk]; exact id
      · rw [hk]; exact fun hm => List.mem_cons_of_mem _ hm
    | op_more d =>
      obtain ⟨_, _, h3, h4, h5, h6⟩ := get_more_snd σ batch d
      simp only [dialog_service_handler.step]
      rw [h3, h4, h5, h6]
      exact ⟨id, id, id, id⟩
  · intro hh
    refine ⟨fun ht hex => ?_, fun ht hex => ?_, fun ht hex => ?_, fun ht hex => ?_⟩ <;>
      simp [dialog_service_handler.get_more, hh, ht,
        dialog_service_handler.adhoc_more, dialog_service_handler.predef_more,
        dialog_service_handler.combined_more, dialog_service_handler.alerts_more,
        hex, String.join]

/-- Witness for C10: cursor 0 of `handler0` survives a `get_more` that drains
it, and a `get_more` on an exhausted cursor returns an empty page. -/
theorem cursors_persist_witness :
    (0 ∈ alist_keys handler0.adhoc →
      0 ∈ alist_keys (handler0.step 5 (.op_more desc_drain)).adhoc) ∧
    (desc_drain.handler_id = handler_done.handler_id ∧
      alist_lookup handler_done.adhoc desc_drain.id = some [] ∧
      (handler_done.get_more 5 desc_drain).1 =
        .ok { desc := { data_type := .RPC_RECORD, handler_id := handler_done.handler_id,
                        id := desc_drain.id, type := .RPC_ADHOC },
              data := "", num_entries := 0, has_more := false }) :=
  ⟨(cursors_persist_and_exhausted_page_empty 5 handler0 (.op_more desc_drain) 0 desc_drain).1.1,
   by decide, rfl,
   ((cursors_persist_and_exhausted_page_empty 5 handler_done (.op_more desc_drain) 0
       desc_drain).2 (by decide)).1 (by decide) rfl⟩

/-- C3 counterexample: when the freshly allocated cursor id is already bound,
the exception message the code raises is
"Duplicate rpc_iterator_id assigned", not "Duplicate iterator id" as the
claim states. Exhibited on `handler_dup`, whose next cursor id 0 is already
bound in the ad-hoc map. -/
theorem duplicate_id_message_counterexample :
    (handler_dup.adhoc_filter 2 "e>0").1 =
      .error (.invalid_operation "Duplicate rpc_iterator_id assigned") ∧
    (handler_dup.adhoc_filter 2 "e>0").1 ≠
      .error (.invalid_operation "Duplicate iterator id") := by
  constructor
  · rfl
  · intro h
    have hx : (Except.error (rpc_exception.invalid_operation
          "Duplicate rpc_iterator_id assigned") :
        Except rpc_exception rpc_iterator_handle) =
        Except.error (rpc_exception.invalid_operation "Duplicate iterator id") := h
    injection hx with hy
    injection hy with hz
    exact absurd hz (by decide)

/-- C3 as amended: for each of the four cursor-open calls, when the table
call succeeds (for the two expression-taking calls) and the freshly allocated
cursor id is already present in that kind's map, the call raises
`InvalidOperation("Duplicate rpc_iterator_id assigned")`. -/
theorem duplicate_id_raises (batch : Nat) (σ : dialog_service_handler)
    (x n : String) (b₁ e₁ : Int) (res : List String) :
    (σ.table.execute_filter x = .ok res →
      alist_contains σ.adhoc σ.iterator_id = true →
      (σ.adhoc_filter batch x).1 =
        .error (.invalid_operation "Duplicate rpc_iterator_id assigned")) ∧
    (alist_contains σ.predef σ.iterator_id = true →
      (σ.predef_filter batch n b₁ e₁).1 =
        .error (.invalid_operation "Duplicate rpc_iterator_id assigned")) ∧
    (σ.table.query_filter_expr n x b₁ e₁ = .ok res →
      alist_contains σ.combined σ.iterator_id = true →
      (σ.combined_filter batch n x b₁ e₁).1 =
        .error (.invalid_operation "Duplicate rpc_iterator_id assigned")) ∧
    (alist_contains σ.alerts σ.iterator_id = true →
      (σ.alerts_by_time batch b₁ e₁).1 =
        .error (.invalid_operation "Duplicate rpc_iterator_id assigned")) := by
  refine ⟨fun hok hc => ?_, fun hc => ?_, fun hok hc => ?_, fun hc => ?_⟩
  · simp [dialog_service_handler.adhoc_filter,
      dialog_service_handler.new_iterator_id, hok, hc]
  · simp [dialog_service_handler.predef_filter,
      dialog_service_handler.new_iterator_id, hc]
  · simp [dialog_service_handler.combined_filter,
      dialog_service_handler.new_iterator_id, hok, hc]
  · simp [dialog_service_handler.alerts_by_time,
      dialog_service_handler.new_iterator_id, hc]

/-- Witness for the amended C3 on `handler_dup` for all four open calls. -/
theorem duplicate_id_raises_witness :
    (handler_dup.adhoc_filter 2 "e>0").1 =
      .error (.invalid_operation "Duplicate rpc_iterator_id assigned") ∧
    (handler_dup.predef_filter 2 "f" 0 10).1 =
      .error (.invalid_operation "Duplicate rpc_iterator_id assigned") ∧
    (handler_dup.combined_filter 2 "f" "e>0" 0 10).1 =
      .error (.invalid_operation "Duplicate rpc_iterator_id assigned") ∧
    (handler_dup.alerts_by_time 2 0 10).1 =
      .error (.invalid_operation "Duplicate rpc_iterator_id assigned") :=
  ⟨(duplicate_id_raises 2 handler_dup "e>0" "f" 0 10 ["aa", "bb", "cc"]).1 rfl (by decide),
   (duplicate_id_raises 2 handler_dup "e>0" "f" 0 10 ["aa", "bb", "cc"]).2.1 (by decide),
   (duplicate_id_raises 2 handler_dup "e>0" "f" 0 10 ["ff"]).2.2.1 rfl (by decide),
   (duplicate_id_raises 2 handler_dup "e>0" "f" 0 10 ["aa", "bb", "cc"]).2.2.2 (by decide)⟩

theorem get_more_adhoc_reduce (σ : dialog_service_handler) (batch id : Nat) :
    σ.get_more batch { data_type := .RPC_RECORD, handler_id := σ.handler_id,
                       id := id, type := .RPC_ADHOC } =
      σ.adhoc_more batch id := by
  simp [dialog_service_handler.get_more]

theorem get_more_predef_reduce (σ : dialog_service_handler) (batch id : Nat) :
    σ.get_more batch { data_type := .RPC_RECORD, handler_id := σ.handler_id,
                       id := id, type := .RPC_PREDEF } =
      σ.predef_more batch id := by
  simp [dialog_service_handler.get_more]

theorem drain_adhoc_aux (batch : Nat) (hb : 0 < batch) :
    ∀ (fuel : Nat) (σ : dialog_service_handler) (id : Nat) (res : List String),
      alist_lookup σ.adhoc id = some res → res.length < fuel →
      drain_pages batch fuel (σ.adhoc_more batch id) = String.join res := by
  intro fuel
  induction fuel with
  | zero => intro σ id res h hf; omega
  | succ fuel ih =>
    intro σ id res h hf
    by_cases hd : res.drop batch = []
    · have hle : res.length ≤ batch := List.drop_eq_nil_iff.mp hd
      have ht : res.take batch = res := List.take_of_length_le hle
      simp [drain_pages, dialog_service_handler.adhoc_more, h, hd, ht]
    · have hlen : batch < res.length := by
        rcases Nat.lt_or_ge batch res.length with h1 | h1
        · exact h1
        · exact absurd (List.drop_eq_nil_iff.mpr h1) hd
      have hup : alist_lookup (alist_update σ.adhoc id (res.drop batch)) id
          = some (res.drop batch) :=
        alist_lookup_update_self _ _ _ (by simp [h])
      have hrec := ih { σ with adhoc := alist_update σ.adhoc id (res.drop batch) }
        id (res.drop batch) hup (by simp; omega)
      have hm : (!(res.drop batch).isEmpty) = true := by
        simp [List.isEmpty_iff, hd]
      simp only [dialog_service_handler.adhoc_more, h, drain_pages, hm, if_true]
      rw [get_more_adhoc_reduce, hrec]
      conv_rhs => rw [← List.take_append_drop batch res]
      rw [string_join_append]

theorem drain_predef_aux (batch : Nat) (hb : 0 < batch) :
    ∀ (fuel : Nat) (σ : dialog_service_handler) (id : Nat) (res : List String),
      alist_lookup σ.predef id = some res → res.length < fuel →
      drain_pages batch fuel (σ.predef_more batch id) = String.join res := by
  intro fuel
  induction fuel with
  | zero => intro σ id res h hf; omega
  | succ fuel ih =>
    intro σ id res h hf
    by_cases hd : res.drop batch = []
    · have hle : res.length ≤ batch := List.drop_eq_nil_iff.mp hd
      have ht : res.take batch = res := List.take_of_length_le hle
      simp [drain_pages, dialog_service_handler.predef_more, h, hd, ht]
    · have hlen : batch < res.length := by
        rcases Nat.lt_or_ge batch res.length with h1 | h1
        · exact h1
        · exact absurd (List.drop_eq_nil_iff.mpr h1) hd
      have hup : alist_lookup (alist_update σ.predef id (res.drop batch)) id
          = some (res.drop batch) :=
        alist_lookup_update_self _ _ _ (by simp [h])
      have hrec := ih { σ with predef := alist_update σ.predef id (res.drop batch) }
        id (res.drop batch) hup (by simp; omega)
      have hm : (!(res.drop batch).isEmpty) = true := by
        simp [List.isEmpty_iff, hd]
      simp only [dialog_service_handler.predef_more, h, drain_pages, hm, if_true]
      rw [get_more_predef_reduce, hrec]
      conv_rhs => rw [← List.take_append_drop batch res]
      rw [string_join_append]

/-- C2: one `_more` call returns at most `batch` entries, `num_entries` is
exactly the number of records appended into `data`, and `has_more` holds iff
the stream still has items; and concatenating the `data` of the opening call
and of every successive `get_more` until `has_more` is false (`drain_pages`)
yields the whole stream's bytes, for ad-hoc and predefined cursors. -/
theorem pagination_equivalence (batch fuel : Nat) (σ : dialog_service_handler)
    (id : Nat) (res : List String) (e n : String) (b₁ e₁ : Int) :
    (alist_lookup σ.adhoc id = some res →
      σ.adhoc_more batch id =
        (.ok { desc := { data_type := .RPC_RECORD, handler_id := σ.handler_id,
                         id := id, type := .RPC_ADHOC },
               data := String.join (res.take batch),
               num_entries := (res.take batch).length,
               has_more := !(res.drop batch).isEmpty },
         { σ with adhoc := alist_update σ.adhoc id (res.drop batch) }) ∧
      (res.take batch).length ≤ batch ∧
      ((!(res.drop batch).isEmpty) = true ↔ batch < res.length)) ∧
    (alist_lookup σ.predef id = some res →
      σ.predef_more batch id =
        (.ok { desc := { data_type := .RPC_RECORD, handler_id := σ.handler_id,
                         id := id, type := .RPC_PREDEF },
               data := String.join (res.take batch),
               num_entries := (res.take batch).length,
               has_more := !(res.drop batch).isEmpty },
         { σ with predef := alist_update σ.predef id (res.drop batch) }) ∧
      (res.take batch).length ≤ batch ∧
      ((!(res.drop batch).isEmpty) = true ↔ batch < res.length)) ∧
    (0 < batch → σ.table.execute_filter e = .ok res →
      alist_contains σ.adhoc σ.iterator_id = false → res.length < fuel →
      drain_pages batch fuel (σ.adhoc_filter batch e) = String.join res) ∧
    (0 < batch → alist_contains σ.predef σ.iterator_id = false →
      (σ.table.query_filter n b₁ e₁).length < fuel →
      drain_pages batch fuel (σ.predef_filter batch n b₁ e₁) =
        String.join (σ.table.query_filter n b₁ e₁)) := by
  refine ⟨fun h => ?_, fun h => ?_, fun hb hok hc hf => ?_, fun hb hc hf => ?_⟩
  · refine ⟨by simp [dialog_service_handler.adhoc_more, h], ?_, ?_⟩
    · simp
    · simp [List.isEmpty_iff, List.drop_eq_nil_iff]
  · refine ⟨by simp [dialog_service_handler.predef_more, h], ?_, ?_⟩
    · simp
    · simp [List.isEmpty_iff, List.drop_eq_nil_iff]
  · simp only [dialog_service_handler.adhoc_filter,
      dialog_service_handler.new_iterator_id, hok, hc]
    exact drain_adhoc_aux batch hb fuel _ σ.iterator_id res
      (alist_lookup_cons_self _ _ _) hf
  · simp only [dialog_service_handler.predef_filter,
      dialog_service_handler.new_iterator_id, hc]
    exact drain_predef_aux batch hb fuel _ σ.iterator_id _
      (alist_lookup_cons_self _ _ _) hf

/-- Witness for C2 on `handler0`: batch 2 over a three-record stream needs
two pages, whose concatenation is the whole stream. -/
theorem pagination_equivalence_witness :
    (handler0.adhoc_more 2 0).1 =
      .ok { desc := { data_type := .RPC_RECORD, handler_id := 7, id := 0,
                      type := .RPC_ADHOC },
            data := "aabb", num_entries := 2, has_more := true } ∧
    drain_pages 2 4 (handler0.adhoc_filter 2 "e>0") = "aabbcc" ∧
    drain_pages 2 4 (handler0.predef_filter 2 "f" 0 10) = "ddee" :=
  ⟨congrArg Prod.fst
    (((pagination_equivalence 2 4 handler0 0 ["aa", "bb", "cc"] "e>0" "f" 0 10).1 rfl).1),
   (pagination_equivalence 2 4 handler0 0 ["aa", "bb", "cc"] "e>0" "f" 0 10).2.2.1
     (by decide) rfl (by decide) (by decide),
   (pagination_equivalence 2 4 handler0 0 ["aa", "bb", "cc"] "e>0" "f" 0 10).2.2.2
     (by decide) (by decide) (by decide)⟩

/-- C9: every page of an alerts cursor — the first page from
`alerts_by_time` as well as any later `get_more` of kind ALERTS — carries in
`data` each alert of the page as its text representation followed by exactly
one newline, in iterator order, and `num_entries` equals the number of alerts
in the page. -/
theorem alerts_page_format (batch : Nat) (σ : dialog_service_handler)
    (desc : rpc_iterator_descriptor) (res : List alert) (begin_ms end_ms : Int) :
    (desc.handler_id = σ.handler_id → desc.type = .RPC_ALERTS →
      alist_lookup σ.alerts desc.id = some res →
      (σ.get_more batch desc).1 =
        .ok { desc := { data_type := .RPC_ALERT, handler_id := σ.handler_id,
                        id := desc.id, type := .RPC_ALERTS },
              data := String.join ((res.take batch).map (fun a => a.to_string ++ "\n")),
              num_entries := (res.take batch).length,
              has_more := !(res.drop batch).isEmpty }) ∧
    (alist_contains σ.alerts σ.iterator_id = false →
      (σ.alerts_by_time batch begin_ms end_ms).1 =
        .ok { desc := { data_type := .RPC_ALERT, handler_id := σ.handler_id,
                        id := σ.iterator_id, type := .RPC_ALERTS },
              data := String.join (((σ.table.get_alerts begin_ms end_ms).take batch).map
                (fun a => a.to_string ++ "\n")),
              num_entries := ((σ.table.get_alerts begin_ms end_ms).take batch).length,
              has_more := !((σ.table.get_alerts begin_ms end_ms).drop batch).isEmpty }) := by
  constructor
  · intro hh ht hres
    simp [dialog_service_handler.get_more, hh, ht,
      dialog_service_handler.alerts_more, hres]
  · intro hc
    simp [dialog_service_handler.alerts_by_time,
      dialog_service_handler.new_iterator_id, hc,
      dialog_service_handler.alerts_more, alist_lookup_cons_self]

/-- Witness for C9: the one-alert page of cursor 2 of `handler0`, and the
first page of a fresh alerts cursor over `table0`'s two alerts with batch
1. -/
theorem alerts_page_format_witness :
    (handler0.get_more 2 { data_type := .RPC_ALERT, handler_id := 7, id := 2,
                           type := .RPC_ALERTS }).1 =
      .ok { desc := { data_type := .RPC_ALERT, handler_id := 7, id := 2,
                      type := .RPC_ALERTS },
            data := "t1|5|3|m1\n", num_entries := 1, has_more := false } ∧
    (handler0.alerts_by_time 1 0 10).1 =
      .ok { desc := { data_type := .RPC_ALERT, handler_id := 7, id := 3,
                      type := .RPC_ALERTS },
            data := "t1|5|3|m1\n", num_entries := 1, has_more := true } :=
  ⟨(alerts_page_format 2 handler0
      { data_type := .RPC_ALERT, handler_id := 7, id := 2, type := .RPC_ALERTS }
      [⟨"t1", 5, 3, "m1"⟩] 0 10).1 (by decide) (by decide) rfl,
   (alerts_page_format 1 handler0
      { data_type := .RPC_ALERT, handler_id := 7, id := 2, type := .RPC_ALERTS }
      [⟨"t1", 5, 3, "m1"⟩] 0 10).2 (by decide)⟩

/-- Modelled from the spec: `dialog_table`'s record store (§4.3) is not in
the sources (only the test `dialog_store_test.h` exercising it is). The store
is an append-only byte arena with a fixed record size; `append` returns the
pre-increment tail as the record's offset. -/
structure record_store where
  record_size : Nat
  buf : List Nat

/-- Modelled from the spec: `append(bytes) → offset` reserves `record_size`
bytes at the tail, copies the record and returns the old tail. -/
def record_store.append (s : record_store) (rec : List Nat) : Nat × record_store :=
  (s.buf.length, { s with buf := s.buf ++ rec })

/-- Modelled from the spec: `read(offset)` yields the `record_size` bytes at
`offset`. -/
def record_store.read (s : record_store) (offset : Nat) : List Nat :=
  (s.buf.drop offset).take s.record_size

/-- Modelled from the spec: `num_records()` returns `tail / record_size`. -/
def record_store.num_records (s : record_store) : Nat :=
  s.buf.length / s.record_size

/-- Sequential appends of a list of records, collecting the returned
offsets. -/
def record_store.append_all (s : record_store) :
    List (List Nat) → List Nat × record_store
  | [] => ([], s)
  | r :: rs =>
    let p := s.append r
    let q := p.2.append_all rs
    (p.1 :: q.1, q.2)

theorem append_all_buf (recs : List (List Nat)) (s : record_store) :
    (s.append_all recs).2.buf = s.buf ++ recs.flatten ∧
    (s.append_all recs).2.record_size = s.record_size := by
  induction recs generalizing s with
  | nil => simp [record_store.append_all]
  | cons r rs ih =>
    simp [record_store.append_all, record_store.append, ih]

theorem append_all_offsets (recs : List (List Nat)) (s : record_store)
    (h : ∀ r ∈ recs, r.length = s.record_size) :
    ∀ i, i < recs.length →
      (s.append_all recs).1.getD i 0 = s.buf.length + i * s.record_size := by
  induction recs generalizing s with
  | nil => intro i hi; simp at hi
  | cons r rs ih =>
    intro i hi
    cases i with
    | zero => simp [record_store.append_all, record_store.append]
    | succ i =>
      have hr : r.length = s.record_size := h r (by simp)
      have hrest := ih (s.append r).2
        (fun r' hr' => by
          simpa [record_store.append] using h r' (List.mem_cons_of_mem _ hr'))
        i (by simpa using hi)
      simp only [record_store.append_all, List.getD_cons_succ]
      rw [hrest]
      simp [record_store.append, hr]
      ring

theorem flatten_fixed_read (recs : List (List Nat)) (w i : Nat)
    (h : ∀ r ∈ recs, r.length = w) (hi : i < recs.length) :
    (recs.flatten.drop (i * w)).take w = recs.getD i [] := by
  induction recs generalizing i with
  | nil => simp at hi
  | cons r rs ih =>
    have hr : r.length = w := h r (by simp)
    cases i with
    | zero =>
      simp only [Nat.zero_mul, List.drop_zero, List.flatten_cons, List.getD_cons_zero]
      rw [← hr, List.take_left]
    | succ i =>
      have : (i + 1) * w = w + i * w := by ring
      rw [this]
      simp only [List.flatten_cons, List.getD_cons_succ,
        List.drop_append_eq_append_drop]
      rw [show List.drop (w + i * w) r = [] from
          List.drop_eq_nil_iff.mpr (by omega)]
      rw [show w + i * w - r.length = i * w by omega]
      simpa using ih i (fun r' hr' => h r' (List.mem_cons_of_mem _ hr'))
        (by simpa using hi)

theorem flatten_fixed_length (recs : List (List Nat)) (w : Nat)
    (h : ∀ r ∈ recs, r.length = w) :
    recs.flatten.length = recs.length * w := by
  induction recs with
  | nil => simp
  | cons r rs ih =>
    have hr : r.length = w := h r (by simp)
    simp [hr, ih (fun r' hr' => h r' (List.mem_cons_of_mem _ hr')), Nat.succ_mul,
      Nat.add_comm]

/-- C7: appending records `r_0 .. r_{n-1}` (each of the table's record size)
to a fresh store returns offsets `o_i` with `read(o_i) = r_i` for every
`i < n`, and `num_records()` returns `n` after all appends. -/
theorem append_read_roundtrip (w : Nat) (recs : List (List Nat))
    (hw : 0 < w) (h : ∀ r ∈ recs, r.length = w) :
    (∀ i, i < recs.length →
      (record_store.append_all ⟨w, []⟩ recs).2.read
          ((record_store.append_all ⟨w, []⟩ recs).1.getD i 0) = recs.getD i []) ∧
    (record_store.append_all ⟨w, []⟩ recs).2.num_records = recs.length := by
  obtain ⟨hbuf, hsize⟩ := append_all_buf recs ⟨w, []⟩
  constructor
  · intro i hi
    have hoff := append_all_offsets recs ⟨w, []⟩ h i hi
    rw [record_store.read, hbuf, hsize, hoff]
    simpa using flatten_fixed_read recs w i h hi
  · rw [record_store.num_records, hbuf, hsize]
    simp [flatten_fixed_length recs w h, Nat.mul_div_cancel _ hw]

/-- Witness for C7 with three two-byte records. -/
theorem append_read_roundtrip_witness :
    (record_store.append_all ⟨2, []⟩ [[1, 2], [3, 4], [5, 6]]).2.read
        ((record_store.append_all ⟨2, []⟩ [[1, 2], [3, 4], [5, 6]]).1.getD 1 0) =
      [3, 4] ∧
    (record_store.append_all ⟨2, []⟩ [[1, 2], [3, 4], [5, 6]]).2.num_records = 3 :=
  ⟨(append_read_roundtrip 2 [[1, 2], [3, 4], [5, 6]] (by decide) (by decide)).1
     1 (by decide),
   (append_read_roundtrip 2 [[1, 2], [3, 4], [5, 6]] (by decide) (by decide)).2⟩

/-- Modelled from the spec: `dialog_store` (§4.8) is not in the sources (only
the test exercising it is). It maps table names to monotonically assigned
ids. -/
structure dialog_store where
  tables : List (String × Nat)
  next_id : Nat

/-- Modelled from the spec: `remove_table(id) → id_or_-1` — the id on
success, `-1` if no table has that id. -/
def dialog_store.remove_table_by_id (s : dialog_store) (id : Nat) :
    Int × dialog_store :=
  if s.tables.any (fun p => p.2 == id) then
    ((id : Int), { s with tables := s.tables.filter (fun p => !(p.2 == id)) })
  else
    (-1, s)

/-- Modelled from the spec: `remove_table(name)` fails with
`ManagementError("No such table <name>")` if the name is absent. -/
def dialog_store.remove_table_by_name (s : dialog_store) (name : String) :
    Except rpc_exception (Int × dialog_store) :=
  match s.tables.find? (fun p => p.1 == name) with
  | none => .error (.management ("No such table " ++ name))
  | some p => .ok (s.remove_table_by_id p.2)

/-- C8: removing an existing table by id returns a value different from
`-1`; removing by a name no table has fails with a Management error whose
message is exactly "No such table " followed by the name. -/
theorem remove_table_contract (s : dialog_store) (id : Nat) (name : String) :
    (s.tables.any (fun p => p.2 == id) = true →
      (s.remove_table_by_id id).1 ≠ -1) ∧
    ((∀ p ∈ s.tables, p.1 ≠ name) →
      s.remove_table_by_name name =
        .error (.management ("No such table " ++ name))) := by
  constructor
  · intro hex
    simp [dialog_store.remove_table_by_id, hex]
  · intro habs
    have hfind : s.tables.find? (fun p => p.1 == name) = none :=
      List.find?_eq_none.mpr (fun p hp => by simp [habs p hp])
    simp [dialog_store.remove_table_by_name, hfind]

/-- Witness for C8 replaying the `RemoveTableTest` scenario: a store holding
`my_table` with id 0, then a store without it. -/
theorem remove_table_contract_witness :
    ((⟨[("my_table", 0)], 1⟩ : dialog_store).remove_table_by_id 0).1 ≠ -1 ∧
    (⟨[], 1⟩ : dialog_store).remove_table_by_name "my_table" =
      .error (.management "No such table my_table") :=
  ⟨(remove_table_contract ⟨[("my_table", 0)], 1⟩ 0 "my_table").1 (by decide),
   (remove_table_contract ⟨[], 1⟩ 0 "my_table").2 (by decide)⟩

end Confluo
